import Mathlib

/-!
Verification of the Anki Hanzi card pipeline (src/main.py).

The program is a single sequential batch pipeline: gather a word list
(from a file or interactive entry), deduplicate it preserving first
occurrences, then for each word call a text-generation service, parse
its JSON reply into six record fields, synthesize two audio files, and
append the resulting row to an in-memory list; every 10th success the
full row list is rewritten to output/notes.csv, and once more after the
loop when at least one row exists.

The embedding below is a faithful translation of that code.  External
effects are modelled explicitly:
  - the generation service and the JSON parse of its reply are an
    oracle (`GenReply`), since both the network call and json.loads are
    library collaborators outside the repository;
  - success of each synthesize_audio invocation (network call plus the
    binary file write) is an oracle predicate on (text, destination);
  - the CSV file is a list of rows; every write performed through
    csv.DictWriter on a freshly "w"-opened handle replaces the whole
    content, and the history of written contents is recorded so that
    temporal claims about snapshots can be stated.  File states are
    tracked at statement granularity: one save_progress call is one
    recorded overwrite.
Python exceptions become an explicit error type; the per-word
try/except of the main loop becomes an Option-valued per-word outcome.
-/

namespace AnkiHanzi

/-- Python str.strip(): remove leading and trailing whitespace. -/
def pyStrip (s : String) : String :=
  String.mk (((s.data.dropWhile Char.isWhitespace).reverse.dropWhile Char.isWhitespace).reverse)

/-- A parsed JSON value as far as this program inspects one: either a
string, or some other value carried opaquely (its Python repr). -/
inductive Json where
  | str (s : String)
  | other (r : String)
deriving DecidableEq

/-- Lookup in a parsed JSON object, as a Python dict built by json.loads:
when a key is repeated the last binding wins. -/
def jlookup (obj : List (String × Json)) (key : String) : Option Json :=
  obj.foldl (fun acc kv => if kv.1 = key then some kv.2 else acc) none

/-- The observable outcome of the generation request for one word:
either the API call raises, or it returns a response text together with
the result of json.loads on that text (none = not a JSON object). -/
inductive GenReply where
  | apiError (msg : String)
  | output (text : String) (parsed : Option (List (String × Json)))
deriving DecidableEq

/-- The Python exceptions that the translated code can raise. -/
inductive PyError where
  | valueError (msg : String)
  | keyError (key : String)
  | attributeError (msg : String)
  | serviceError (msg : String)
deriving DecidableEq

/-- The six fields returned by generate_fields_from_hanzi. -/
structure GenFields where
  hanzi : String
  english : String
  pinyin : String
  sentence : String
  translation : String
  cloze : String
deriving DecidableEq

/-- Evaluate `value.strip()` on a JSON value: succeeds with the trimmed
string when the value is a string, raises AttributeError otherwise. -/
def stripValue : Json → Except PyError String
  | .str s => .ok (pyStrip s)
  | .other r => .error (.attributeError r)

/-- A JSON value used verbatim (no .strip()): english and pinyin are
stored as-is. -/
def jsonText : Json → String
  | .str s => s
  | .other r => r

/-- generate_fields_from_hanzi (src/main.py lines 27-68), given the
oracle reply for this word.  Field expressions are evaluated in the
order of the Python dict literal: english, pinyin, sentence (then its
.strip()), translation (then .strip()), cloze (then .strip()); the
first failing access raises. -/
def generate_fields_from_hanzi (hanzi : String) (reply : GenReply) : Except PyError GenFields :=
  match reply with
  | .apiError msg => .error (.serviceError msg)
  | .output _text parsed =>
    match parsed with
    | none => .error (.valueError "Could not parse GPT output")
    | some data =>
      match jlookup data "english" with
      | none => .error (.keyError "english")
      | some e =>
        match jlookup data "pinyin" with
        | none => .error (.keyError "pinyin")
        | some p =>
          match jlookup data "sentence" with
          | none => .error (.keyError "sentence")
          | some s =>
            match stripValue s with
            | .error err => .error err
            | .ok s' =>
              match jlookup data "translation" with
              | none => .error (.keyError "translation")
              | some t =>
                match stripValue t with
                | .error err => .error err
                | .ok t' =>
                  match jlookup data "cloze" with
                  | none => .error (.keyError "cloze")
                  | some c =>
                    match stripValue c with
                    | .error err => .error err
                    | .ok c' =>
                      .ok { hanzi := hanzi, english := jsonText e, pinyin := jsonText p,
                            sentence := s', translation := t', cloze := c' }

/-- A fully processed row, as stored in processed_rows. -/
structure Record where
  hanzi : String
  english : String
  pinyin : String
  sentence : String
  translation : String
  cloze : String
  audioWord : String
  audioSentence : String
deriving DecidableEq

/-- The fixed CSV header (fieldnames in src/main.py lines 93-97 and 111-115). -/
def headerRow : List String :=
  ["Hanzi", "English", "Pinyin", "Sentence",
   "Sentence (Translation)", "Sentence (Cloze)",
   "Audio (Word)", "Audio (Sentence)"]

/-- The CSV data row written for one record, in header order. -/
def rowOf (r : Record) : List String :=
  [r.hanzi, r.english, r.pinyin, r.sentence,
   r.translation, r.cloze, r.audioWord, r.audioSentence]

/-- os.path.basename: the portion of the path after the last slash. -/
def basename (p : String) : String :=
  String.mk (p.data.foldl (fun acc c => if c = '/' then [] else acc ++ [c]) [])

/-- Destination path of the word audio clip (src/main.py line 161). -/
def audioWordPath (hanzi : String) : String :=
  "output/audio/" ++ hanzi ++ "_word.mp3"

/-- Destination path of the sentence audio clip (src/main.py line 162). -/
def audioSentPath (hanzi : String) : String :=
  "output/audio/" ++ hanzi ++ "_sentence.mp3"

/-- The external world of one run: the generation oracle for each word
and, for each synthesize_audio invocation (text, destination), whether
it completes without raising. -/
structure Env where
  gen : String → GenReply
  synthOk : String → String → Bool

/-- Outcome of the per-word body of the main loop (src/main.py lines
157-181): the record appended on success, plus how many generation and
synthesis calls were issued for this word. -/
structure WordResult where
  record : Option Record
  genCalls : Nat
  synthCalls : Nat
deriving DecidableEq

/-- The body of the try block for one word: generate the fields, then
synthesize the word audio, then the sentence audio; any failure makes
the word fail with no record.  The audio reference fields embed the
basename of the destination path. -/
def processOneWord (env : Env) (hanzi : String) : WordResult :=
  match generate_fields_from_hanzi hanzi (env.gen hanzi) with
  | .error _ => ⟨none, 1, 0⟩
  | .ok f =>
    if env.synthOk f.hanzi (audioWordPath hanzi) then
      if env.synthOk f.sentence (audioSentPath hanzi) then
        ⟨some { hanzi := f.hanzi, english := f.english, pinyin := f.pinyin,
                sentence := f.sentence, translation := f.translation, cloze := f.cloze,
                audioWord := "[sound:" ++ basename (audioWordPath hanzi) ++ "]",
                audioSentence := "[sound:" ++ basename (audioSentPath hanzi) ++ "]" },
          1, 2⟩
      else ⟨none, 1, 2⟩
    else ⟨none, 1, 1⟩

/-- The mutable state of a run: the current content of output/notes.csv,
the history of contents written to it, the in-memory rows, the failure
list, row_count, and counters of external calls. -/
structure RunState where
  file : List (List String)
  writes : List (List (List String))
  processedRows : List Record
  failedWords : List String
  rowCount : Nat
  genCalls : Nat
  synthCalls : Nat
deriving DecidableEq

/-- Overwrite output/notes.csv with the given full content and record
the write in the history. -/
def writeFile (content : List (List String)) (st : RunState) : RunState :=
  { st with file := content, writes := st.writes ++ [content] }

/-- The full content written by one snapshot: header plus one row per
record, in order. -/
def snapshotContent (rows : List Record) : List (List String) :=
  headerRow :: rows.map rowOf

/-- save_progress (src/main.py lines 90-100): reopen the file in "w"
mode and rewrite header plus all rows.  (The writer argument of the
Python function is ignored by its body.) -/
def save_progress (rows : List Record) (st : RunState) : RunState :=
  writeFile (snapshotContent rows) st

/-- One iteration of the main loop (src/main.py lines 156-181). -/
def loopStep (env : Env) (st : RunState) (hanzi : String) : RunState :=
  let r := processOneWord env hanzi
  let st := { st with genCalls := st.genCalls + r.genCalls,
                      synthCalls := st.synthCalls + r.synthCalls }
  match r.record with
  | none => { st with failedWords := st.failedWords ++ [hanzi] }
  | some rec =>
    let st := { st with processedRows := st.processedRows ++ [rec],
                        rowCount := st.rowCount + 1 }
    if st.rowCount % 10 = 0 then save_progress st.processedRows st else st

/-- The main loop over the (deduplicated) word list. -/
def runLoop (env : Env) : List String → RunState → RunState
  | [], st => st
  | w :: ws, st => runLoop env ws (loopStep env st w)

/-- Deduplication with a seen-set (src/main.py lines 149-150). -/
def pyDedupAux (seen : List String) : List String → List String
  | [] => []
  | x :: xs => if x ∈ seen then pyDedupAux seen xs else x :: pyDedupAux (x :: seen) xs

/-- Remove duplicates preserving order (src/main.py lines 148-150). -/
def pyDedup (words : List String) : List String :=
  pyDedupAux [] words

/-- The duplicate-removal notice (src/main.py lines 152-153): printed
only when at least one duplicate was removed. -/
def dedupReport (words : List String) : Option Nat :=
  if words.length > (pyDedup words).length then
    some (words.length - (pyDedup words).length)
  else none

/-- Where the word list comes from: a designated path (with its
existence and, if it exists, its lines), or interactive entry (the
stripped-input lines typed, in order). -/
inductive InputSource where
  | fromFile (path : String) (present : Bool) (lines : List String)
  | interactive (lines : List String)

/-- The words gathered interactively: each input line is stripped and
entry stops at the first empty result (src/main.py lines 137-141). -/
def interactiveWords (lines : List String) : List String :=
  (lines.map pyStrip).takeWhile (fun s => s ≠ "")

/-- How a run terminates. -/
inductive Outcome where
  | ok
  | inputNotFound (path : String)
  | noWords
deriving DecidableEq

/-- Everything observable at the end of a run. -/
structure MainResult where
  outcome : Outcome
  state : RunState
  removedReport : Option Nat
  summaryProcessed : Nat
  summaryFailed : Option (List String)

/-- The tail of main after the word list is fixed (src/main.py lines
147-192): dedup, report, loop, conditional final save, summary. -/
def runPipeline (env : Env) (words0 : List String) (st : RunState) : MainResult :=
  let words := pyDedup words0
  let st := runLoop env words st
  let st := if st.processedRows = [] then st else save_progress st.processedRows st
  { outcome := .ok, state := st,
    removedReport := dedupReport words0,
    summaryProcessed := st.processedRows.length,
    summaryFailed := if st.failedWords = [] then none else some st.failedWords }

/-- main (src/main.py lines 102-192).  `prev` is whatever content
output/notes.csv held before the run; the first action after parsing
arguments is to overwrite it with the bare header, before the input
path is even looked at. -/
def main (prev : List (List String)) (src : InputSource) (env : Env) : MainResult :=
  let st0 : RunState :=
    { file := prev, writes := [], processedRows := [], failedWords := [],
      rowCount := 0, genCalls := 0, synthCalls := 0 }
  let st1 := writeFile [headerRow] st0
  match src with
  | .fromFile path present lines =>
    if present then
      runPipeline env ((lines.map pyStrip).filter (fun s => s ≠ "")) st1
    else
      { outcome := .inputNotFound path, state := st1, removedReport := none,
        summaryProcessed := 0, summaryFailed := none }
  | .interactive lines =>
    let words := interactiveWords lines
    if words = [] then
      { outcome := .noWords, state := st1, removedReport := none,
        summaryProcessed := 0, summaryFailed := none }
    else
      runPipeline env words st1

/-- The word list the main loop actually iterates over, for a given
source (empty on the fatal paths). -/
def wordsOf : InputSource → List String
  | .fromFile _ present lines =>
      if present then pyDedup ((lines.map pyStrip).filter (fun s => s ≠ "")) else []
  | .interactive lines =>
      if interactiveWords lines = [] then [] else pyDedup (interactiveWords lines)

/-- The state right after the initial header write, from which the loop
starts. -/
def startState : RunState :=
  { file := [headerRow], writes := [[headerRow]], processedRows := [],
    failedWords := [], rowCount := 0, genCalls := 0, synthCalls := 0 }

theorem loopStep_processedRows (env : Env) (st : RunState) (w : String) :
    (loopStep env st w).processedRows
      = st.processedRows ++ ((processOneWord env w).record).toList := by
  unfold loopStep
  cases hr : (processOneWord env w).record with
  | none => simp [hr]
  | some rec =>
    simp only [hr]
    split <;> simp [save_progress, writeFile]

theorem loopStep_failedWords (env : Env) (st : RunState) (w : String) :
    (loopStep env st w).failedWords
      = st.failedWords
        ++ (if ((processOneWord env w).record).isNone then [w] else []) := by
  unfold loopStep
  cases hr : (processOneWord env w).record with
  | none => simp [hr]
  | some rec =>
    simp only [hr]
    split <;> simp [save_progress, writeFile]

theorem runLoop_processedRows (env : Env) (ws : List String) : ∀ st : RunState,
    (runLoop env ws st).processedRows
      = st.processedRows ++ ws.filterMap (fun w => (processOneWord env w).record) := by
  induction ws with
  | nil => intro st; simp [runLoop]
  | cons w ws ih =>
    intro st
    rw [runLoop, ih, loopStep_processedRows, List.filterMap_cons]
    cases hr : (processOneWord env w).record <;> simp [hr]

theorem runLoop_failedWords (env : Env) (ws : List String) : ∀ st : RunState,
    (runLoop env ws st).failedWords
      = st.failedWords
        ++ ws.filter (fun w => ((processOneWord env w).record).isNone) := by
  induction ws with
  | nil => intro st; simp [runLoop]
  | cons w ws ih =>
    intro st
    rw [runLoop, ih, loopStep_failedWords, List.filter_cons]
    cases hr : (processOneWord env w).record <;> simp [hr]

theorem length_filter_isNone_add_length_filterMap {α β : Type} (f : α → Option β)
    (l : List α) :
    (l.filter (fun a => (f a).isNone)).length + (l.filterMap f).length = l.length := by
  induction l with
  | nil => simp
  | cons a l ih =>
    rw [List.filter_cons, List.filterMap_cons]
    cases h : f a <;> simp [h, ← ih] <;> omega

/-- The invariant that relates the on-disk snapshot to the in-memory
rows throughout the main loop: the file always holds the header plus
exactly the rows of the last multiple-of-10 checkpoint. -/
def FileInv (st : RunState) : Prop :=
  st.rowCount = st.processedRows.length ∧
  st.file = headerRow
    :: (st.processedRows.take (10 * (st.processedRows.length / 10))).map rowOf

theorem fileInv_loopStep (env : Env) (st : RunState) (w : String)
    (h : FileInv st) : FileInv (loopStep env st w) := by
  obtain ⟨hc, hf⟩ := h
  unfold loopStep
  cases hr : (processOneWord env w).record with
  | none => simp only [hr]; exact ⟨hc, hf⟩
  | some rec =>
    simp only [hr]
    by_cases hmod : (st.rowCount + 1) % 10 = 0
    · rw [if_pos hmod]
      have hdvd : 10 ∣ st.processedRows.length + 1 := by
        rw [← hc]; exact Nat.dvd_of_mod_eq_zero hmod
      refine ⟨by simp [save_progress, writeFile, hc], ?_⟩
      have h10 : 10 * ((st.processedRows.length + 1) / 10)
          = st.processedRows.length + 1 := Nat.mul_div_cancel' hdvd
      simp only [save_progress, writeFile, snapshotContent, hc, List.length_append,
        List.length_cons, List.length_nil, Nat.zero_add, h10]
      rw [show st.processedRows.length + 1
            = (st.processedRows ++ [rec]).length by simp, List.take_length]
    · rw [if_neg hmod]
      refine ⟨by simp [hc], ?_⟩
      have hndvd : ¬ 10 ∣ st.processedRows.length + 1 := by
        rw [← hc]; intro hd
        exact hmod (Nat.dvd_iff_mod_eq_zero.mp hd)
      have hdiv : (st.processedRows.length + 1) / 10 = st.processedRows.length / 10 := by
        rw [Nat.succ_div, if_neg hndvd, Nat.add_zero]
      have hle : 10 * (st.processedRows.length / 10) ≤ st.processedRows.length :=
        Nat.mul_div_le _ _
      simp only [List.length_append, List.length_cons, List.length_nil, Nat.zero_add,
        hdiv, List.take_append_of_le_length hle]
      exact hf

theorem fileInv_runLoop (env : Env) (ws : List String) : ∀ st : RunState,
    FileInv st → FileInv (runLoop env ws st) := by
  induction ws with
  | nil => intro st h; exact h
  | cons w ws ih => intro st h; exact ih _ (fileInv_loopStep env st w h)

/-- Every content ever written to the output file starts with the
header row. -/
def WritesInv (st : RunState) : Prop :=
  st.writes.head? = some [headerRow] ∧
  st.writes.all (fun c => c.head? == some headerRow) = true

theorem writesInv_writeFile (rows : List Record) (st : RunState)
    (h : WritesInv st) : WritesInv (save_progress rows st) := by
  obtain ⟨h1, h2⟩ := h
  constructor
  · simp only [save_progress, writeFile, List.head?_append, h1, Option.or]
  · simp only [save_progress, writeFile, List.all_append, h2, Bool.true_and,
      List.all_cons, List.all_nil, snapshotContent, List.head?_cons, Bool.and_true]
    simp

theorem writesInv_loopStep (env : Env) (st : RunState) (w : String)
    (h : WritesInv st) : WritesInv (loopStep env st w) := by
  unfold loopStep
  cases hr : (processOneWord env w).record with
  | none => simp only [hr]; exact h
  | some rec =>
    simp only [hr]
    split
    · exact writesInv_writeFile _ _ h
    · exact h

theorem writesInv_runLoop (env : Env) (ws : List String) : ∀ st : RunState,
    WritesInv st → WritesInv (runLoop env ws st) := by
  induction ws with
  | nil => intro st h; exact h
  | cons w ws ih => intro st h; exact ih _ (writesInv_loopStep env st w h)

/-- Spec-side rendering of deduplication, written from the words of the
specification: keep each word at its first occurrence and delete every
later repetition of it. -/
def specDedupFirst : List String → List String
  | [] => []
  | x :: xs => x :: specDedupFirst (xs.filter (fun y => decide (y ≠ x)))
termination_by l => l.length
decreasing_by
  simp_wf
  exact Nat.lt_succ_of_le (List.length_filter_le _ _)

theorem pyDedupAux_eq_spec (l : List String) : ∀ seen : List String,
    pyDedupAux seen l = specDedupFirst (l.filter (fun y => decide (y ∉ seen))) := by
  induction l with
  | nil => intro seen; simp [pyDedupAux, specDedupFirst]
  | cons x xs ih =>
    intro seen
    by_cases hx : x ∈ seen
    · rw [pyDedupAux, if_pos hx, ih seen]
      simp [hx]
    · have hpt : ∀ y, (decide (y ≠ x) && decide (y ∉ seen)) = decide (y ∉ x :: seen) := by
        intro y
        by_cases h1 : y = x <;> by_cases h2 : y ∈ seen <;> simp [h1, h2]
      rw [pyDedupAux, if_neg hx, ih (x :: seen)]
      have hfx : decide (x ∉ seen) = true := by simp [hx]
      simp only [List.filter_cons, hfx, if_pos, specDedupFirst, List.filter_filter, hpt]

/-- C1: for every input word list, the processed list equals the input
with duplicates removed keeping each first occurrence in place, and
whenever a removed-duplicate count is reported it equals
len(input) - len(deduped); a count is reported exactly when at least
one duplicate was removed. -/
theorem dedup_keeps_first_occurrences (words : List String) :
    pyDedup words = specDedupFirst words ∧
    (∀ k, dedupReport words = some k → k = words.length - (pyDedup words).length) ∧
    ((pyDedup words).length < words.length →
      dedupReport words = some (words.length - (pyDedup words).length)) := by
  refine ⟨?_, ?_, ?_⟩
  · have h := pyDedupAux_eq_spec words []
    simpa [pyDedup] using h
  · intro k hk
    unfold dedupReport at hk
    split at hk
    · exact (Option.some.injEq _ _ ▸ hk).symm
    · exact absurd hk (by simp)
  · intro h
    unfold dedupReport
    simp [h]

theorem dedup_keeps_first_occurrences_witness :
    pyDedup ["a", "b", "a"] = specDedupFirst ["a", "b", "a"] ∧
    dedupReport ["a", "b", "a"]
      = some (["a", "b", "a"].length - (pyDedup ["a", "b", "a"]).length) :=
  ⟨(dedup_keeps_first_occurrences ["a", "b", "a"]).1,
   (dedup_keeps_first_occurrences ["a", "b", "a"]).2.2 (by decide)⟩

theorem fileInv_startState : FileInv startState := ⟨rfl, rfl⟩

theorem writesInv_startState : WritesInv startState := ⟨rfl, by decide⟩

theorem runPipeline_state (env : Env) (words0 : List String) :
    (runPipeline env words0 startState).state.processedRows
      = (pyDedup words0).filterMap (fun w => (processOneWord env w).record) ∧
    (runPipeline env words0 startState).state.failedWords
      = (pyDedup words0).filter (fun w => ((processOneWord env w).record).isNone) ∧
    (runPipeline env words0 startState).state.file
      = headerRow :: ((runPipeline env words0 startState).state.processedRows.map rowOf) ∧
    WritesInv (runPipeline env words0 startState).state := by
  have hrows := runLoop_processedRows env (pyDedup words0) startState
  have hfail := runLoop_failedWords env (pyDedup words0) startState
  have hfi := fileInv_runLoop env (pyDedup words0) startState fileInv_startState
  have hwi := writesInv_runLoop env (pyDedup words0) startState writesInv_startState
  simp only [runPipeline]
  by_cases hemp : (runLoop env (pyDedup words0) startState).processedRows = []
  · rw [if_pos hemp]
    refine ⟨hrows, hfail, ?_, hwi⟩
    rw [hfi.2, hemp]
    rfl
  · rw [if_neg hemp]
    refine ⟨?_, ?_, ?_, ?_⟩
    · simpa [save_progress, writeFile] using hrows
    · simpa [save_progress, writeFile] using hfail
    · simp [save_progress, writeFile, snapshotContent]
    · exact writesInv_writeFile _ _ hwi

theorem writeFile_header_start (prev : List (List String)) :
    writeFile [headerRow]
      { file := prev, writes := [], processedRows := [], failedWords := [],
        rowCount := 0, genCalls := 0, synthCalls := 0 } = startState := rfl

theorem main_characterization (prev : List (List String)) (src : InputSource)
    (env : Env) :
    (main prev src env).state.processedRows
      = (wordsOf src).filterMap (fun w => (processOneWord env w).record) ∧
    (main prev src env).state.failedWords
      = (wordsOf src).filter (fun w => ((processOneWord env w).record).isNone) ∧
    (main prev src env).state.file
      = headerRow :: ((main prev src env).state.processedRows.map rowOf) ∧
    WritesInv (main prev src env).state ∧
    (main prev src env).summaryFailed
      = (if (main prev src env).state.failedWords = []
         then none else some (main prev src env).state.failedWords) ∧
    (main prev src env).summaryProcessed
      = (main prev src env).state.processedRows.length := by
  cases src with
  | fromFile path present lines =>
    cases present with
    | false =>
      exact ⟨rfl, rfl, rfl, writesInv_startState, rfl, rfl⟩
    | true =>
      have hm : main prev (.fromFile path true lines) env
          = runPipeline env ((lines.map pyStrip).filter (fun s => s ≠ "")) startState := rfl
      have h := runPipeline_state env ((lines.map pyStrip).filter (fun s => s ≠ ""))
      rw [hm]
      have hw : wordsOf (.fromFile path true lines)
          = pyDedup ((lines.map pyStrip).filter (fun s => s ≠ "")) := rfl
      rw [hw]
      exact ⟨h.1, h.2.1, h.2.2.1, h.2.2.2, rfl, rfl⟩
  | interactive lines =>
    by_cases hil : interactiveWords lines = []
    · have hm : main prev (.interactive lines) env
          = { outcome := .noWords, state := startState, removedReport := none,
              summaryProcessed := 0, summaryFailed := none } := by
        simp only [main]
        rw [writeFile_header_start, if_pos hil]
      have hw : wordsOf (.interactive lines)
          = (if interactiveWords lines = [] then []
             else pyDedup (interactiveWords lines)) := rfl
      rw [hm, hw, if_pos hil]
      exact ⟨rfl, rfl, rfl, writesInv_startState, rfl, rfl⟩
    · have hm : main prev (.interactive lines) env
          = runPipeline env (interactiveWords lines) startState := by
        simp only [main]
        rw [writeFile_header_start, if_neg hil]
      have hw : wordsOf (.interactive lines)
          = (if interactiveWords lines = [] then []
             else pyDedup (interactiveWords lines)) := rfl
      have h := runPipeline_state env (interactiveWords lines)
      rw [hm, hw, if_neg hil]
      exact ⟨h.1, h.2.1, h.2.2.1, h.2.2.2, rfl, rfl⟩

/-- C2: at the end of every run the on-disk table is exactly the fixed
header row followed by one data row per successfully processed word, in
processing order (S rows for S successes, S at most the number of
processed words), and every content ever written to the file was a full
header-led snapshot, never an append. -/
theorem final_snapshot_complete (prev : List (List String)) (src : InputSource)
    (env : Env) :
    (main prev src env).state.file
      = headerRow :: ((main prev src env).state.processedRows.map rowOf) ∧
    (main prev src env).state.processedRows
      = (wordsOf src).filterMap (fun w => (processOneWord env w).record) ∧
    (main prev src env).state.processedRows.length ≤ (wordsOf src).length ∧
    (main prev src env).state.writes.all
      (fun c => c.head? == some headerRow) = true := by
  have h := main_characterization prev src env
  refine ⟨h.2.2.1, h.1, ?_, ?_⟩
  · rw [h.1]
    exact List.length_filterMap_le _ _
  · have hwi := h.2.2.2.1.2
    simpa using hwi

/-- C3: after any number of loop iterations the on-disk table holds the
header plus exactly the first 10 * floor(S / 10) successful rows, where
S is the number of successes so far; the snapshot is rewritten exactly
when the running row count reaches a multiple of 10, so an interruption
after 23 successes leaves the first 20 rows on disk and the file never
holds more successes than have completed. -/
theorem checkpoint_every_ten (env : Env) (ws : List String) (n : Nat) :
    (runLoop env (ws.take n) startState).file
      = headerRow ::
        ((runLoop env (ws.take n) startState).processedRows.take
          (10 * ((runLoop env (ws.take n) startState).processedRows.length / 10))).map
          rowOf ∧
    (runLoop env (ws.take n) startState).rowCount
      = (runLoop env (ws.take n) startState).processedRows.length := by
  have h := fileInv_runLoop env (ws.take n) startState fileInv_startState
  exact ⟨h.2, h.1⟩

/-- C4: every per-word failure is absorbed at the per-word boundary:
the failed word is appended to the failure list, contributes no row,
and the loop reaches every word (successes plus failures exhaust the
word list); the end-of-run summary reports the failed words verbatim
exactly when there are any. -/
theorem per_word_failures_isolated (prev : List (List String)) (src : InputSource)
    (env : Env) :
    (main prev src env).state.failedWords
      = (wordsOf src).filter (fun w => ((processOneWord env w).record).isNone) ∧
    (main prev src env).state.processedRows
      = (wordsOf src).filterMap (fun w => (processOneWord env w).record) ∧
    (main prev src env).state.failedWords.length
        + (main prev src env).state.processedRows.length = (wordsOf src).length ∧
    (main prev src env).summaryFailed
      = (if (main prev src env).state.failedWords = []
         then none else some (main prev src env).state.failedWords) := by
  have h := main_characterization prev src env
  refine ⟨h.2.1, h.1, ?_, h.2.2.2.2.1⟩
  rw [h.1, h.2.1]
  exact length_filter_isNone_add_length_filterMap _ _

/-- C7: when the designated input file does not exist, the run reports
the missing path and stops: no generation call, no synthesis call, no
data row. -/
theorem missing_input_short_circuit (prev : List (List String)) (path : String)
    (lines : List String) (env : Env) :
    (main prev (.fromFile path false lines) env).outcome
      = .inputNotFound path ∧
    (main prev (.fromFile path false lines) env).state.genCalls = 0 ∧
    (main prev (.fromFile path false lines) env).state.synthCalls = 0 ∧
    (main prev (.fromFile path false lines) env).state.processedRows = [] :=
  ⟨rfl, rfl, rfl, rfl⟩

/-- C8: when interactive entry yields zero words the run ends with the
no-words outcome before any processing: no external call is made and
the output table holds only the header. -/
theorem empty_interactive_no_words (prev : List (List String)) (lines : List String)
    (env : Env) (h : interactiveWords lines = []) :
    (main prev (.interactive lines) env).outcome = .noWords ∧
    (main prev (.interactive lines) env).state.genCalls = 0 ∧
    (main prev (.interactive lines) env).state.synthCalls = 0 ∧
    (main prev (.interactive lines) env).state.file = [headerRow] := by
  have hm : main prev (.interactive lines) env
      = { outcome := .noWords, state := startState, removedReport := none,
          summaryProcessed := 0, summaryFailed := none } := by
    simp only [main]
    rw [writeFile_header_start, if_pos h]
  rw [hm]
  exact ⟨rfl, rfl, rfl, rfl⟩

/-- Environment in which every word fails at the generation call. -/
def downEnv : Env :=
  { gen := fun _ => .apiError "service unavailable", synthOk := fun _ _ => false }

theorem empty_interactive_no_words_witness :
    (main [["old", "row"]] (.interactive [""]) downEnv).outcome = .noWords ∧
    (main [["old", "row"]] (.interactive [""]) downEnv).state.genCalls = 0 ∧
    (main [["old", "row"]] (.interactive [""]) downEnv).state.synthCalls = 0 ∧
    (main [["old", "row"]] (.interactive [""]) downEnv).state.file = [headerRow] :=
  empty_interactive_no_words [["old", "row"]] [""] downEnv rfl

/-- C9: every invocation first overwrites output/notes.csv with a
header-only file, before the input path is validated: the first
recorded write is always the bare header, and a run that fails with
input-not-found still leaves the header-only file in place of whatever
the previous run had written. -/
theorem header_overwrite_unconditional (prev : List (List String))
    (src : InputSource) (env : Env) (path : String) (lines : List String) :
    (main prev src env).state.writes.head? = some [headerRow] ∧
    (main prev (.fromFile path false lines) env).state.file = [headerRow] ∧
    (main prev (.fromFile path false lines) env).state.writes = [[headerRow]] :=
  ⟨(main_characterization prev src env).2.2.2.1.1, rfl, rfl⟩

/-- C10: an existing input file whose lines are all blank is not the
no-words fatal case: the run completes normally with an empty word
list, zero external calls, zero successes and a header-only table. -/
theorem blank_input_file_proceeds (prev : List (List String)) (path : String)
    (lines : List String) (env : Env) (h : ∀ l ∈ lines, pyStrip l = "") :
    (main prev (.fromFile path true lines) env).outcome = .ok ∧
    (main prev (.fromFile path true lines) env).state.genCalls = 0 ∧
    (main prev (.fromFile path true lines) env).state.synthCalls = 0 ∧
    (main prev (.fromFile path true lines) env).state.processedRows = [] ∧
    (main prev (.fromFile path true lines) env).state.file = [headerRow] ∧
    (main prev (.fromFile path true lines) env).summaryProcessed = 0 := by
  have hw : (lines.map pyStrip).filter (fun s => s ≠ "") = [] := by
    rw [List.filter_eq_nil_iff]
    intro a ha
    obtain ⟨l, hl, rfl⟩ := List.mem_map.mp ha
    simp [h l hl]
  have hm : main prev (.fromFile path true lines) env
      = runPipeline env ((lines.map pyStrip).filter (fun s => s ≠ "")) startState := rfl
  rw [hm, hw]
  exact ⟨rfl, rfl, rfl, rfl, rfl, rfl⟩

/-- A generation reply carrying the five expected string fields. -/
def okObjFor (e p s t c : String) : List (String × Json) :=
  [("english", .str e), ("pinyin", .str p), ("sentence", .str s),
   ("translation", .str t), ("cloze", .str c)]

/-- Environment in which every word generates successfully and both
synthesis calls succeed. -/
def allOkEnv : Env :=
  { gen := fun _ => .output "reply" (some (okObjFor "dog" "gou3" "a sentence" "a translation" "a cloze")),
    synthOk := fun _ _ => true }

theorem blank_input_file_proceeds_witness :
    (main [] (.fromFile "words.txt" true ["", "  ", "\t"]) allOkEnv).outcome = .ok ∧
    (main [] (.fromFile "words.txt" true ["", "  ", "\t"]) allOkEnv).state.genCalls = 0 ∧
    (main [] (.fromFile "words.txt" true ["", "  ", "\t"]) allOkEnv).state.synthCalls = 0 ∧
    (main [] (.fromFile "words.txt" true ["", "  ", "\t"]) allOkEnv).state.processedRows = [] ∧
    (main [] (.fromFile "words.txt" true ["", "  ", "\t"]) allOkEnv).state.file = [headerRow] ∧
    (main [] (.fromFile "words.txt" true ["", "  ", "\t"]) allOkEnv).summaryProcessed = 0 :=
  blank_input_file_proceeds [] "words.txt" ["", "  ", "\t"] allOkEnv (by decide)

/-- C5 counterexample: the JSON-parse failure raised by
generate_fields_from_hanzi is the fixed ValueError "Could not parse GPT
output"; two different words with two different unparseable raw texts
produce the very same error value, so the error carries neither the
word nor the raw response text; and a missing required key raises a
KeyError, a different kind of failure from the parse error. -/
theorem parse_error_fixed_message :
    generate_fields_from_hanzi "狗" (.output "AAA" none)
      = .error (.valueError "Could not parse GPT output") ∧
    generate_fields_from_hanzi "猫" (.output "BBB" none)
      = generate_fields_from_hanzi "狗" (.output "AAA" none) ∧
    generate_fields_from_hanzi "狗"
        (.output "CCC" (some [("pinyin", Json.str "gou3"), ("sentence", Json.str "s"),
          ("translation", Json.str "t"), ("cloze", Json.str "c")]))
      = .error (.keyError "english") ∧
    PyError.keyError "english" ≠ PyError.valueError "Could not parse GPT output" :=
  ⟨rfl, rfl, rfl, by decide⟩

/-- C5 as amended: when the response does not parse as JSON, generate
fails with ValueError("Could not parse GPT output") — a fixed message
independent of the word and the raw text; when the response parses but
a required key is missing, generate fails with a KeyError naming the
first missing key in evaluation order (english, pinyin, sentence,
translation, cloze), a different error kind, provided the values read
before it are strings. -/
theorem generate_failure_kinds (hanzi text : String) (obj : List (String × Json)) :
    generate_fields_from_hanzi hanzi (.output text none)
      = .error (.valueError "Could not parse GPT output") ∧
    (jlookup obj "english" = none →
      generate_fields_from_hanzi hanzi (.output text (some obj))
        = .error (.keyError "english")) ∧
    (∀ e, jlookup obj "english" = some e → jlookup obj "pinyin" = none →
      generate_fields_from_hanzi hanzi (.output text (some obj))
        = .error (.keyError "pinyin")) ∧
    (∀ e p, jlookup obj "english" = some e → jlookup obj "pinyin" = some p →
      jlookup obj "sentence" = none →
      generate_fields_from_hanzi hanzi (.output text (some obj))
        = .error (.keyError "sentence")) ∧
    (∀ e p s, jlookup obj "english" = some e → jlookup obj "pinyin" = some p →
      jlookup obj "sentence" = some (Json.str s) → jlookup obj "translation" = none →
      generate_fields_from_hanzi hanzi (.output text (some obj))
        = .error (.keyError "translation")) ∧
    (∀ e p s t, jlookup obj "english" = some e → jlookup obj "pinyin" = some p →
      jlookup obj "sentence" = some (Json.str s) →
      jlookup obj "translation" = some (Json.str t) → jlookup obj "cloze" = none →
      generate_fields_from_hanzi hanzi (.output text (some obj))
        = .error (.keyError "cloze")) := by
  refine ⟨rfl, ?_, ?_, ?_, ?_, ?_⟩
  · intro h
    simp [generate_fields_from_hanzi, h]
  · intro e he hp
    simp [generate_fields_from_hanzi, he, hp]
  · intro e p he hp hs
    simp [generate_fields_from_hanzi, he, hp, hs]
  · intro e p s he hp hs ht
    simp [generate_fields_from_hanzi, he, hp, hs, ht, stripValue]
  · intro e p s t he hp hs ht hc
    simp [generate_fields_from_hanzi, he, hp, hs, ht, hc, stripValue]

theorem generate_failure_kinds_witness :
    generate_fields_from_hanzi "狗" (.output "x" none)
      = .error (.valueError "Could not parse GPT output") ∧
    generate_fields_from_hanzi "狗" (.output "x" (some []))
      = .error (.keyError "english") ∧
    generate_fields_from_hanzi "狗" (.output "x" (some [("english", Json.str "d")]))
      = .error (.keyError "pinyin") ∧
    generate_fields_from_hanzi "狗"
        (.output "x" (some [("english", Json.str "d"), ("pinyin", Json.str "p")]))
      = .error (.keyError "sentence") ∧
    generate_fields_from_hanzi "狗"
        (.output "x" (some [("english", Json.str "d"), ("pinyin", Json.str "p"),
          ("sentence", Json.str "s")]))
      = .error (.keyError "translation") ∧
    generate_fields_from_hanzi "狗"
        (.output "x" (some [("english", Json.str "d"), ("pinyin", Json.str "p"),
          ("sentence", Json.str "s"), ("translation", Json.str "t")]))
      = .error (.keyError "cloze") :=
  ⟨(generate_failure_kinds "狗" "x" []).1,
   (generate_failure_kinds "狗" "x" []).2.1 rfl,
   (generate_failure_kinds "狗" "x" [("english", Json.str "d")]).2.2.1 _ rfl rfl,
   (generate_failure_kinds "狗" "x"
     [("english", Json.str "d"), ("pinyin", Json.str "p")]).2.2.2.1 _ _ rfl rfl rfl,
   (generate_failure_kinds "狗" "x"
     [("english", Json.str "d"), ("pinyin", Json.str "p"),
      ("sentence", Json.str "s")]).2.2.2.2.1 _ _ _ rfl rfl rfl rfl,
   (generate_failure_kinds "狗" "x"
     [("english", Json.str "d"), ("pinyin", Json.str "p"), ("sentence", Json.str "s"),
      ("translation", Json.str "t")]).2.2.2.2.2 _ _ _ _ rfl rfl rfl rfl rfl⟩

theorem foldl_basename_no_slash : ∀ (l acc : List Char), (∀ ch ∈ l, ch ≠ '/') →
    l.foldl (fun acc c => if c = '/' then [] else acc ++ [c]) acc = acc ++ l := by
  intro l
  induction l with
  | nil => intro acc _; simp
  | cons c cs ih =>
    intro acc h
    have hc : c ≠ '/' := h c (List.mem_cons_self c cs)
    rw [List.foldl_cons, if_neg hc, ih (acc ++ [c]) (fun ch hch => h ch (List.mem_cons_of_mem c hch))]
    simp

theorem basename_audioWordPath (hanzi : String) (h : '/' ∉ hanzi.data) :
    basename (audioWordPath hanzi) = hanzi ++ "_word.mp3" := by
  have hdata : (audioWordPath hanzi).data
      = "output/audio/".data ++ hanzi.data ++ "_word.mp3".data := by
    simp [audioWordPath, String.data_append]
  have h1 : ∀ ch ∈ hanzi.data, ch ≠ '/' := fun ch hch he => h (he ▸ hch)
  have h2 : ∀ ch ∈ "_word.mp3".data, ch ≠ '/' := by decide
  unfold basename
  rw [hdata, List.foldl_append, List.foldl_append]
  have hpre : "output/audio/".data.foldl
      (fun acc c => if c = '/' then [] else acc ++ [c]) [] = [] := by decide
  rw [hpre, foldl_basename_no_slash hanzi.data [] h1, List.nil_append,
    foldl_basename_no_slash "_word.mp3".data hanzi.data h2]
  have : (hanzi ++ "_word.mp3").data = hanzi.data ++ "_word.mp3".data :=
    String.data_append _ _
  rw [← this]

theorem basename_audioSentPath (hanzi : String) (h : '/' ∉ hanzi.data) :
    basename (audioSentPath hanzi) = hanzi ++ "_sentence.mp3" := by
  have hdata : (audioSentPath hanzi).data
      = "output/audio/".data ++ hanzi.data ++ "_sentence.mp3".data := by
    simp [audioSentPath, String.data_append]
  have h1 : ∀ ch ∈ hanzi.data, ch ≠ '/' := fun ch hch he => h (he ▸ hch)
  have h2 : ∀ ch ∈ "_sentence.mp3".data, ch ≠ '/' := by decide
  unfold basename
  rw [hdata, List.foldl_append, List.foldl_append]
  have hpre : "output/audio/".data.foldl
      (fun acc c => if c = '/' then [] else acc ++ [c]) [] = [] := by decide
  rw [hpre, foldl_basename_no_slash hanzi.data [] h1, List.nil_append,
    foldl_basename_no_slash "_sentence.mp3".data hanzi.data h2]
  have : (hanzi ++ "_sentence.mp3").data = hanzi.data ++ "_sentence.mp3".data :=
    String.data_append _ _
  rw [← this]

/-- Environment for the slash counterexample: generation succeeds with
five string fields and both synthesis calls succeed for every word. -/
def slashEnv : Env :=
  { gen := fun _ => .output "reply"
      (some (okObjFor "dog" "gǒu" "这是狗。" "This is a dog." "这是___。")),
    synthOk := fun _ _ => true }

/-- C6 counterexample: for the word "./狗" (a string a caller can place
in the input file), the stored audio reference embeds the basename
"狗_word.mp3" — the part of the destination path after its last slash —
and not "./狗_word.mp3" as the universal statement of the claim requires. -/
theorem audio_ref_slash_counterexample :
    (processOneWord slashEnv "./狗").record
      = some { hanzi := "./狗", english := "dog", pinyin := "gǒu",
               sentence := "这是狗。", translation := "This is a dog.",
               cloze := "这是___。",
               audioWord := "[sound:狗_word.mp3]",
               audioSentence := "[sound:狗_sentence.mp3]" } ∧
    "[sound:狗_word.mp3]" ≠ "[sound:" ++ "./狗" ++ "_word.mp3]" :=
  ⟨rfl, by decide⟩

/-- C6 as amended: for every word containing no slash whose generation
reply carries the five string fields and whose two synthesis calls
succeed, the stored record keeps english and pinyin verbatim, stores
sentence, translation and cloze trimmed of surrounding whitespace, and
the audio reference columns are the playback markup around the
basenames hanzi_word.mp3 and hanzi_sentence.mp3; for a word containing
a slash the embedded basename is the portion of the derived path after
the last slash. -/
theorem record_fields_roundtrip (env : Env) (hanzi text e p s t c : String)
    (obj : List (String × Json))
    (hgen : env.gen hanzi = .output text (some obj))
    (he : jlookup obj "english" = some (Json.str e))
    (hp : jlookup obj "pinyin" = some (Json.str p))
    (hs : jlookup obj "sentence" = some (Json.str s))
    (ht : jlookup obj "translation" = some (Json.str t))
    (hc : jlookup obj "cloze" = some (Json.str c))
    (hw : env.synthOk hanzi (audioWordPath hanzi) = true)
    (hsent : env.synthOk (pyStrip s) (audioSentPath hanzi) = true)
    (hslash : '/' ∉ hanzi.data) :
    (processOneWord env hanzi).record
      = some { hanzi := hanzi, english := e, pinyin := p, sentence := pyStrip s,
               translation := pyStrip t, cloze := pyStrip c,
               audioWord := "[sound:" ++ (hanzi ++ "_word.mp3") ++ "]",
               audioSentence := "[sound:" ++ (hanzi ++ "_sentence.mp3") ++ "]" } := by
  have hgenf : generate_fields_from_hanzi hanzi (env.gen hanzi)
      = .ok { hanzi := hanzi, english := e, pinyin := p, sentence := pyStrip s,
              translation := pyStrip t, cloze := pyStrip c } := by
    rw [hgen]
    simp [generate_fields_from_hanzi, he, hp, hs, ht, hc, stripValue, jsonText]
  unfold processOneWord
  rw [hgenf]
  simp only [hw, hsent, if_pos]
  rw [basename_audioWordPath hanzi hslash, basename_audioSentPath hanzi hslash]

theorem record_fields_roundtrip_witness :
    (processOneWord slashEnv "狗").record
      = some { hanzi := "狗", english := "dog", pinyin := "gǒu",
               sentence := pyStrip "这是狗。", translation := pyStrip "This is a dog.",
               cloze := pyStrip "这是___。",
               audioWord := "[sound:" ++ ("狗" ++ "_word.mp3") ++ "]",
               audioSentence := "[sound:" ++ ("狗" ++ "_sentence.mp3") ++ "]" } :=
  record_fields_roundtrip slashEnv "狗" "reply" "dog" "gǒu" "这是狗。"
    "This is a dog." "这是___。"
    (okObjFor "dog" "gǒu" "这是狗。" "This is a dog." "这是___。")
    rfl rfl rfl rfl rfl rfl rfl rfl (by decide)

end AnkiHanzi
